import Mathlib

/-!
Shallow embedding of the ricoh-camera-controller library (TypeScript) for
checking its natural-language specification.

Components embedded here, each translated from the repository source:
* the difference engine (src/utils.ts: findDifferences, deepEqual, hasAnyKey);
* the shoot-mode lookup table and its derived reverse map
  (src/adapters/gr3/ShootModeLookup.ts);
* the poll-tick state machine of the two protocol adapters
  (src/adapters/gr3/GR3Adapter.ts, src/adapters/GR2Adapter.ts);
* drive-mode / self-timer operations of both adapters;
* the Poller timer semantics (src/shared/infrastructure/Poller.ts);
* the facade's adapter-event forwarding (src/index.tsx).

JavaScript runtime values that can appear in a device snapshot are modelled by
the inductive type JVal below.  Snapshot numbers come from JSON responses, so
they are modelled as integers (JSON cannot carry NaN or Infinity); snapshots
themselves are association lists of string keys, a faithful model of the plain
JSON objects the device returns.
-/

/-- A JavaScript value as it appears in device snapshots: a scalar
(string / number / boolean / null), an array, or a nested plain object. -/
inductive JVal where
  | str (s : String)
  | num (n : Int)
  | bool (b : Bool)
  | null
  | arr (xs : List JVal)
  | obj (fields : List (String × JVal))

/-- A device snapshot / plain JS record: an association list from property
names to values.  A JS object cannot repeat a key; lists whose keys are
duplicate-free are the well-formed ones (see wfSnap). -/
abbrev Snap := List (String × JVal)

/-- Property access obj[key]: the value stored under the first matching key,
or none for JavaScript's undefined. -/
def lookupSnap (s : Snap) (k : String) : Option JVal :=
  (s.find? (fun p => p.1 == k)).map (·.2)

/-- Object.keys: the property names of a record, in insertion order. -/
def keysOf (s : Snap) : List String := s.map Prod.fst

mutual

/-- deepEqual from src/utils.ts.  Primitives compare by value (the === fast
path); a primitive never deep-equals an object; two objects compare by
Object.keys length plus per-key recursion.  For two arrays the generic key
loop of the source ranges over the index keys "0".."n-1", which is exactly a
length check plus element-wise recursion, the form used here. -/
def deepEqual : JVal → JVal → Bool
  | .str a, .str b => a == b
  | .num a, .num b => a == b
  | .bool a, .bool b => a == b
  | .null, .null => true
  | .arr xs, .arr ys => xs.length == ys.length && deepEqualElems xs ys
  | .obj f1, .obj f2 => f1.length == f2.length && deepEqualFields f1 f2
  | _, _ => false

/-- Element-wise recursion of deepEqual over two arrays of equal length. -/
def deepEqualElems : List JVal → List JVal → Bool
  | [], _ => true
  | _ :: _, [] => false
  | x :: xs, y :: ys => deepEqual x y && deepEqualElems xs ys

/-- The per-key loop of deepEqual over the first object's fields: each key must
be a key of the second object whose value deep-equals this one (a key missing
from the second object makes obj2[key] undefined, which no value equals). -/
def deepEqualFields : List (String × JVal) → List (String × JVal) → Bool
  | [], _ => true
  | (k, v) :: rest, f2 =>
    (match lookupSnap f2 k with
     | some w => deepEqual v w
     | none => false) && deepEqualFields rest f2

end

/-- deepEqual applied to possibly-undefined property accesses, as the key loop
of findDifferences does: undefined === undefined holds, undefined never equals
a present value (it is not an object, so deepEqual's recursion rejects it). -/
def deepEqualO : Option JVal → Option JVal → Bool
  | none, none => true
  | some v, some w => deepEqual v w
  | _, _ => false

/-- The result of findDifferences: the record of per-key before/after pairs
(obj1 value, obj2 value, either possibly undefined) and the difference count. -/
structure DifferenceResult where
  differences : List (String × Option JVal × Option JVal)
  size : Nat

/-- findDifferences from src/utils.ts: iterate over the set union of both key
lists; report every key that is not excluded and whose two values are not
deepEqual, storing the pair of raw property accesses; size counts the reported
keys. -/
def findDifferences (obj1 obj2 : Snap) (excludedKeys : List String) :
    DifferenceResult :=
  let keys := (keysOf obj1 ++ keysOf obj2).dedup
  let diffs := keys.filterMap fun key =>
    if !excludedKeys.contains key &&
        !deepEqualO (lookupSnap obj1 key) (lookupSnap obj2 key) then
      some (key, lookupSnap obj1 key, lookupSnap obj2 key)
    else
      none
  { differences := diffs, size := diffs.length }

/-- hasAnyKey from src/utils.ts, specialised to a difference record: does any
reported key belong to the given key set? -/
def hasAnyKey (differences : List (String × Option JVal × Option JVal))
    (keys : List String) : Bool :=
  differences.any fun e => keys.contains e.1

mutual

/-- Well-formedness of a modelled JS value: object keys are duplicate-free at
every level (a real JS object cannot repeat a key; the association-list model
can, so the realisable values are singled out). -/
def wfVal : JVal → Prop
  | .arr xs => wfList xs
  | .obj f => (f.map Prod.fst).Nodup ∧ wfFields f
  | _ => True

/-- All values of a list are well-formed. -/
def wfList : List JVal → Prop
  | [] => True
  | x :: xs => wfVal x ∧ wfList xs

/-- All field values of an object are well-formed. -/
def wfFields : List (String × JVal) → Prop
  | [] => True
  | p :: rest => wfVal p.2 ∧ wfFields rest

end

/-- A well-formed snapshot: a genuine flat JS record (duplicate-free keys,
well-formed values). -/
def wfSnap (s : Snap) : Prop := (s.map Prod.fst).Nodup ∧ wfFields s

theorem wfList_of_mem : ∀ {xs : List JVal}, wfList xs → ∀ {x}, x ∈ xs → wfVal x := by
  intro xs h x hx
  induction xs with
  | nil => cases hx
  | cons y ys ih =>
    rw [wfList] at h
    cases hx with
    | head => exact h.1
    | tail _ hm => exact ih h.2 hm

theorem wfFields_of_mem : ∀ {f : List (String × JVal)}, wfFields f →
    ∀ {p}, p ∈ f → wfVal p.2 := by
  intro f h p hp
  induction f with
  | nil => cases hp
  | cons q rest ih =>
    rw [wfFields] at h
    cases hp with
    | head => exact h.1
    | tail _ hm => exact ih h.2 hm

/-- In a record with duplicate-free keys, property access at a stored pair's
key returns exactly that pair's value. -/
theorem lookupSnap_self : ∀ {f : Snap}, (f.map Prod.fst).Nodup →
    ∀ {p : String × JVal}, p ∈ f → lookupSnap f p.1 = some p.2 := by
  intro f hnd p hp
  induction f with
  | nil => cases hp
  | cons q rest ih =>
    rw [List.map_cons, List.nodup_cons] at hnd
    cases hp with
    | head =>
      simp [lookupSnap, List.find?]
    | tail _ hm =>
      have hne : (q.1 == p.1) = false := by
        refine beq_false_of_ne ?_
        intro hqp
        exact hnd.1 (hqp ▸ List.mem_map_of_mem Prod.fst hm)
      simpa [lookupSnap, List.find?, hne] using ih hnd.2 hm

theorem lookupSnap_eq_some : ∀ {s : Snap} {k v}, lookupSnap s k = some v →
    ∃ p, p ∈ s ∧ p.1 = k ∧ p.2 = v := by
  intro s k v h
  unfold lookupSnap at h
  rcases Option.map_eq_some'.mp h with ⟨p, hfind, hv⟩
  exact ⟨p, List.mem_of_find?_eq_some hfind,
    by simpa using List.find?_some hfind, hv⟩

theorem lookupSnap_isSome_of_key : ∀ {s : Snap} {k}, k ∈ keysOf s →
    (lookupSnap s k).isSome := by
  intro s k hk
  rcases List.mem_map.mp hk with ⟨p, hp, hpk⟩
  have h : (s.find? (fun p => p.1 == k)).isSome :=
    List.find?_isSome.mpr ⟨p, hp, by simp [hpk]⟩
  simpa [lookupSnap, Option.isSome_map] using h

theorem key_of_lookupSnap_isSome : ∀ {s : Snap} {k},
    (lookupSnap s k).isSome → k ∈ keysOf s := by
  intro s k h
  rcases Option.isSome_iff_exists.mp h with ⟨v, hv⟩
  rcases lookupSnap_eq_some hv with ⟨p, hp, hpk, _⟩
  exact hpk ▸ List.mem_map_of_mem Prod.fst hp

theorem deepEqualElems_refl_of : ∀ (xs : List JVal),
    (∀ x ∈ xs, deepEqual x x = true) → deepEqualElems xs xs = true := by
  intro xs ih
  induction xs with
  | nil => rfl
  | cons x rest irec =>
    have h1 := ih x (.head rest)
    have h2 := irec fun y hy => ih y (.tail x hy)
    simp only [deepEqualElems, h1, h2, Bool.and_self]

theorem deepEqualFields_refl_of : ∀ (f1 f2 : List (String × JVal)),
    (∀ p ∈ f1, lookupSnap f2 p.1 = some p.2) →
    (∀ p ∈ f1, deepEqual p.2 p.2 = true) →
    deepEqualFields f1 f2 = true := by
  intro f1 f2 hl ih
  induction f1 with
  | nil => rfl
  | cons p rest irec =>
    have h1 := hl p (.head rest)
    have h2 := ih p (.head rest)
    have h3 := irec (fun q hq => hl q (.tail p hq)) (fun q hq => ih q (.tail p hq))
    obtain ⟨k, v⟩ := p
    simp only at h1 h2
    simp only [deepEqualFields, h1, h2, h3, Bool.and_self]

/-- deepEqual is reflexive on every realisable (duplicate-free-keyed) JS
value.  NaN, the one JavaScript value for which v === v fails, cannot occur in
a device snapshot because snapshots are parsed from JSON. -/
theorem deepEqual_refl : ∀ (v : JVal), wfVal v → deepEqual v v = true
  | .str _, _ => by simp [deepEqual]
  | .num _, _ => by simp [deepEqual]
  | .bool _, _ => by simp [deepEqual]
  | .null, _ => by simp [deepEqual]
  | .arr xs, h => by
    have hx : wfList xs := by rw [wfVal] at h; exact h
    have ih : ∀ x ∈ xs, deepEqual x x = true := fun x hx' =>
      have hlt : sizeOf x < 1 + sizeOf xs := by
        have := List.sizeOf_lt_of_mem hx'
        omega
      deepEqual_refl x (wfList_of_mem hx hx')
    have he := deepEqualElems_refl_of xs ih
    simp only [deepEqual, he, beq_self_eq_true, Bool.and_self]
  | .obj f, h => by
    have hw : (f.map Prod.fst).Nodup ∧ wfFields f := by rw [wfVal] at h; exact h
    have ih : ∀ p ∈ f, deepEqual p.2 p.2 = true := fun p hp =>
      have hlt : sizeOf p.2 < 1 + sizeOf f := by
        have h1 := List.sizeOf_lt_of_mem hp
        have h2 : sizeOf p.2 < sizeOf p := by
          obtain ⟨a, b⟩ := p; simp only [Prod.mk.sizeOf_spec]; omega
        omega
      deepEqual_refl p.2 (wfFields_of_mem hw.2 hp)
    have he := deepEqualFields_refl_of f f (fun p hp => lookupSnap_self hw.1 hp) ih
    simp only [deepEqual, he, beq_self_eq_true, Bool.and_self]
termination_by v => sizeOf v
decreasing_by
  · simpa using hlt
  · simpa using hlt

/-- deepEqual never distinguishes a well-formed record's value from itself. -/
theorem deepEqualO_lookup_self (a : Snap) (h : wfSnap a) (k : String) :
    deepEqualO (lookupSnap a k) (lookupSnap a k) = true := by
  cases hc : lookupSnap a k with
  | none => rfl
  | some v =>
    rcases lookupSnap_eq_some hc with ⟨p, hp, _, hv⟩
    have hr := deepEqual_refl p.2 (wfFields_of_mem h.2 hp)
    rw [hv] at hr
    simpa [deepEqualO] using hr

/-- C6: for every snapshot (flat mapping of property names to scalar or list
values), findDifferences applied to the snapshot and itself, with the default
empty exclusion list, produces an empty difference record of size 0. -/
theorem findDifferences_self (a : Snap) (h : wfSnap a) :
    findDifferences a a [] = ⟨[], 0⟩ := by
  have hnone : ∀ k ∈ (keysOf a ++ keysOf a).dedup,
      (if !(([] : List String).contains k) &&
          !deepEqualO (lookupSnap a k) (lookupSnap a k) then
        some (k, lookupSnap a k, lookupSnap a k)
      else none) = none := by
    intro k _
    simp [deepEqualO_lookup_self a h k]
  simp only [findDifferences]
  rw [List.filterMap_eq_nil_iff.mpr hnone]
  rfl

/-- C6 witness: a concrete snapshot diffed against itself. -/
theorem findDifferences_self_witness :
    findDifferences [("av", JVal.str "2.8"), ("battery", JVal.num 67)]
      [("av", JVal.str "2.8"), ("battery", JVal.num 67)] [] = ⟨[], 0⟩ :=
  findDifferences_self _ (by constructor <;> simp [wfFields, wfVal])

/-- Completeness core of findDifferences: a non-excluded key whose two
property accesses are not deepEqual is reported with its before/after pair. -/
theorem findDifferences_mem (a b : Snap) (E : List String) (k : String)
    (hkE : k ∉ E)
    (hne : deepEqualO (lookupSnap a k) (lookupSnap b k) = false) :
    (k, lookupSnap a k, lookupSnap b k) ∈ (findDifferences a b E).differences := by
  have h1 : E.contains k = false := by simpa using hkE
  have hcond : (!E.contains k &&
      !deepEqualO (lookupSnap a k) (lookupSnap b k)) = true := by
    rw [h1, hne]; rfl
  have hkey : k ∈ (keysOf a ++ keysOf b).dedup := by
    rw [List.mem_dedup, List.mem_append]
    cases ha : lookupSnap a k with
    | some v =>
      exact Or.inl (key_of_lookupSnap_isSome (by simp [ha]))
    | none =>
      cases hb : lookupSnap b k with
      | some v =>
        exact Or.inr (key_of_lookupSnap_isSome (by simp [hb]))
      | none =>
        rw [ha, hb] at hne
        cases hne
  simp only [findDifferences]
  exact List.mem_filterMap.mpr ⟨k, hkey, by rw [if_pos hcond]⟩

/-- C5: soundness and completeness of the difference engine.  Every reported
key lies outside the exclusion set; every key outside the exclusion set whose
values in the two snapshots are not deepEqual (a key absent from one side
counting as undefined, which equals no present value) is reported together
with its before/after pair; and with an empty baseline every key of the
candidate is reported as changed. -/
theorem findDifferences_sound_complete (a b : Snap) (E : List String) :
    (∀ k x y, (k, x, y) ∈ (findDifferences a b E).differences → k ∉ E) ∧
    (∀ k, k ∉ E →
      deepEqualO (lookupSnap a k) (lookupSnap b k) = false →
      (k, lookupSnap a k, lookupSnap b k) ∈ (findDifferences a b E).differences) ∧
    (∀ k ∈ keysOf b,
      (k, none, lookupSnap b k) ∈ (findDifferences [] b []).differences) := by
  refine ⟨?_, fun k hkE hne => findDifferences_mem a b E k hkE hne, ?_⟩
  · intro k x y hmem
    simp only [findDifferences] at hmem
    rcases List.mem_filterMap.mp hmem with ⟨k', _, hif⟩
    by_cases hc : (!E.contains k' &&
        !deepEqualO (lookupSnap a k') (lookupSnap b k')) = true
    · rw [if_pos hc] at hif
      have hk : k' = k := congrArg (·.1) (Option.some.inj hif)
      have h1 : E.contains k' = false := by
        rcases Bool.and_eq_true_iff.mp hc with ⟨h1, _⟩
        simpa using h1
      rw [hk] at h1
      simpa using h1
    · rw [if_neg hc] at hif
      cases hif
  · intro k hk
    have hb : (lookupSnap b k).isSome := lookupSnap_isSome_of_key hk
    rcases Option.isSome_iff_exists.mp hb with ⟨v, hv⟩
    have hne : deepEqualO (lookupSnap ([] : Snap) k) (lookupSnap b k) = false := by
      rw [hv]; rfl
    have hmem := findDifferences_mem ([] : Snap) b [] k (by simp) hne
    simpa using hmem

/-- C5 witness: a one-key change is reported, outside an empty exclusion
set, with its before/after pair. -/
theorem findDifferences_sound_complete_witness :
    ("av", some (JVal.str "2.8"), some (JVal.str "4.0")) ∈
      (findDifferences [("av", JVal.str "2.8")] [("av", JVal.str "4.0")]
        []).differences := by
  have h := (findDifferences_sound_complete [("av", JVal.str "2.8")]
    [("av", JVal.str "4.0")] []).2.1 "av" (by simp) (by decide)
  simpa using h

/-- The forward shoot-mode lookup table from
src/adapters/gr3/ShootModeLookup.ts: drive mode, then self-timer option, to
the device's flat shoot-mode string. -/
def shootModeLookup : List (String × List (String × String)) :=
  [("single", [("off", "single"), ("2s", "self2s"), ("10s", "self10s")]),
   ("continuous", [("off", "continuous")]),
   ("interval",
    [("off", "interval"), ("2s", "intervalSelf2s"), ("10s", "intervalSelf10s")]),
   ("intervalComp",
    [("off", "intervalComp"), ("2s", "intervalCompSelf2s"),
     ("10s", "intervalCompSelf10s")]),
   ("multiExp",
    [("off", "multiExp"), ("2s", "multiExpSelf2s"), ("10s", "multiExpSelf10s")]),
   ("bracket",
    [("off", "bracket"), ("2s", "bracketSelf2s"), ("10s", "bracketSelf10s")])]

/-- The forward table flattened in iteration order:
(driveMode, selfTimer, flat shoot-mode string). -/
def shootModeEntries : List (String × String × String) :=
  shootModeLookup.flatMap fun dm => dm.2.map fun st => (dm.1, st.1, st.2)

/-- JS property assignment target[key] = value on an object modelled as an
association list: overwrite in place when the key exists, append otherwise. -/
def assocSet {α : Type} (m : List (String × α)) (k : String) (v : α) :
    List (String × α) :=
  if m.any (fun p => p.1 == k) then
    m.map fun p => if p.1 == k then (k, v) else p
  else
    m ++ [(k, v)]

/-- The derived reverse map, built exactly as the module initialiser of
ShootModeLookup.ts builds it: iterate the flattened forward entries and
assign reverse[shootMode] = (driveMode, selfTimer), later entries silently
overwriting earlier ones on a key collision. -/
def shootModeReverseMap : List (String × String × String) :=
  shootModeEntries.foldl (fun acc e => assocSet acc e.2.2 (e.1, e.2.1)) []

/-- Reverse lookup shootModeReverseMap[mode]. -/
def shootModeReverseLookup (mode : String) : Option (String × String) :=
  (shootModeReverseMap.find? (fun p => p.1 == mode)).map (·.2)

/-- C9: the derived reverse shoot-mode map is a perfect inverse of the
forward table — every flattened forward entry (driveMode, selfTimer, mode)
reverse-looks-up to exactly its (driveMode, selfTimer) pair, and the reverse
map has exactly as many entries as the flattened forward table (so no flat
shoot-mode string collision ever overwrote a reverse entry). -/
theorem shootModeReverseMap_perfect_inverse :
    (∀ e ∈ shootModeEntries,
      shootModeReverseLookup e.2.2 = some (e.1, e.2.1)) ∧
    shootModeReverseMap.length = shootModeEntries.length := by
  constructor
  · decide
  · decide

/-- C9 witness: a concrete forward entry round-trips through the reverse
map. -/
theorem shootModeReverseMap_perfect_inverse_witness :
    shootModeReverseLookup "intervalSelf10s" = some ("interval", "10s") :=
  shootModeReverseMap_perfect_inverse.1 ("interval", "10s", "intervalSelf10s")
    (by decide)

/-- The error conditions an adapter operation can fail with.  notFound,
notSupported and invalidArgument model the explicitly thrown Error objects,
carrying their messages; jsTypeError models the implicit TypeError raised by
dereferencing a property of undefined (as the non-null assertion in
GR3Adapter.getDriveMode / getSelfTimerOption can do at runtime). -/
inductive CamErr where
  | notFound (msg : String)
  | notSupported (msg : String)
  | invalidArgument (msg : String)
  | jsTypeError
  deriving Repr, DecidableEq

/-- The mutable state of a protocol adapter instance that the poll cycle and
the accessors touch: the connected flag, the cached device snapshot (null
before the first successful poll), and whether the internal poller is armed. -/
structure AdapterState where
  isConnected : Bool
  cachedDeviceInfo : Option Snap
  pollerActive : Bool

/-- The info accessor: returns the cached device snapshot. -/
def infoAcc (s : AdapterState) : Option Snap := s.cachedDeviceInfo

/-- The captureSettings accessor of both adapters returns the very same
cached object as the info accessor (GR3Adapter.captureSettings and
GR2Adapter.captureSettings both return this._cachedDeviceInfo). -/
def captureSettingsAcc (s : AdapterState) : Option Snap := s.cachedDeviceInfo

/-- The optional chain this._cachedDeviceInfo?.shootMode: undefined when no
snapshot is cached, otherwise the cached shootMode field, a string by the
IDeviceInfo interface (ICaptureSettings types shootMode as string). -/
def cachedShootMode (s : AdapterState) : Option String :=
  match s.cachedDeviceInfo with
  | none => none
  | some snap =>
    match lookupSnap snap "shootMode" with
    | some (JVal.str m) => some m
    | _ => none

namespace GR3

/-- GR3Adapter.getDriveMode: when a shootMode string is cached, dereference
shootModeReverseMap[shootMode]!.driveMode — if the reverse map has no entry
the non-null assertion dereferences undefined and a TypeError is raised; the
explicit notFound Error is only thrown when shootMode is undefined. -/
def getDriveMode (s : AdapterState) : Except CamErr String :=
  match cachedShootMode s with
  | some m =>
    match shootModeReverseLookup m with
    | some e => .ok e.1
    | none => .error .jsTypeError
  | none => .error (.notFound "Shoot mode \"undefined\" not found.")

/-- GR3Adapter.getSelfTimerOption: same shape as getDriveMode, projecting the
selfTimer component of the reverse entry. -/
def getSelfTimerOption (s : AdapterState) : Except CamErr String :=
  match cachedShootMode s with
  | some m =>
    match shootModeReverseLookup m with
    | some e => .ok e.2
    | none => .error .jsTypeError
  | none => .error (.notFound "Shoot mode \"undefined\" not found.")

end GR3

/-- C3, success half: with a cached shootMode string that has a reverse
entry, getDriveMode and getSelfTimerOption return the entry's components. -/
theorem gr3_shootMode_decode (s : AdapterState) (m : String)
    (d t : String)
    (hm : cachedShootMode s = some m)
    (hr : shootModeReverseLookup m = some (d, t)) :
    GR3.getDriveMode s = .ok d ∧ GR3.getSelfTimerOption s = .ok t := by
  constructor <;> simp [GR3.getDriveMode, GR3.getSelfTimerOption, hm, hr]

/-- C3 witness for the success half, at a cached shootMode of self2s. -/
theorem gr3_shootMode_decode_witness :
    GR3.getDriveMode ⟨true, some [("shootMode", JVal.str "self2s")], true⟩ =
      .ok "single" ∧
    GR3.getSelfTimerOption ⟨true, some [("shootMode", JVal.str "self2s")], true⟩ =
      .ok "2s" :=
  gr3_shootMode_decode _ "self2s" "single" "2s" (by decide) (by decide)

/-- C3, failure half, refuting the claimed NotFound condition: with a cached
shootMode string that has no reverse entry (here "movie", a mode the GR III
reports but the table omits), both getters fail with the implicit TypeError
from dereferencing undefined, not with the explicit not-found Error — that
Error is reachable only when shootMode itself is undefined (no cache). -/
theorem gr3_shootMode_unmapped_typeError :
    GR3.getDriveMode ⟨true, some [("shootMode", JVal.str "movie")], true⟩ =
      .error .jsTypeError ∧
    GR3.getSelfTimerOption ⟨true, some [("shootMode", JVal.str "movie")], true⟩ =
      .error .jsTypeError ∧
    GR3.getDriveMode ⟨false, none, true⟩ =
      .error (.notFound "Shoot mode \"undefined\" not found.") := by
  refine ⟨?_, ?_, ?_⟩ <;> rfl

namespace GR2

/-- GR2Adapter.getDriveModeList: returns a fixed five-entry list (it does not
throw). -/
def getDriveModeList : Except CamErr (List String) :=
  .ok ["single", "intervalComp", "interval", "continuous", "bracket"]

/-- GR2Adapter.getDriveMode: throws. -/
def getDriveMode : Except CamErr String :=
  .error (.notSupported "getDriveMode() is not supported on Ricoh GR II")

/-- GR2Adapter.getSelfTimerOptionList: throws. -/
def getSelfTimerOptionList : Except CamErr (List String) :=
  .error (.notSupported
    "getSelfTimerOptionList() is not supported on Ricoh GR II")

/-- GR2Adapter.getSelfTimerOption: throws. -/
def getSelfTimerOption : Except CamErr String :=
  .error (.notSupported "getSelfTimerOption() is not supported on Ricoh GR II")

/-- GR2Adapter.setShootMode: rejects for every argument pair. -/
def setShootMode (_driveMode _selfTimerOption : String) : Except CamErr Unit :=
  .error (.notSupported "setShootMode() is not supported on Ricoh GR II")

end GR2

/-- C4 counterexample: the claim says the drive-mode list operation on the
GR II adapter fails with a NotSupported condition, but getDriveModeList
returns a fixed five-entry list instead of failing. -/
theorem gr2_getDriveModeList_returns :
    GR2.getDriveModeList =
      .ok ["single", "intervalComp", "interval", "continuous", "bracket"] :=
  rfl

/-- C4 as amended: on the GR II adapter, drive-mode get, self-timer-option
list, self-timer-option get, and combined shoot-mode set all fail with a
NotSupported condition (for setShootMode, at every argument pair); only the
drive-mode list operation returns a value instead. -/
theorem gr2_driveMode_ops_notSupported :
    GR2.getDriveMode =
      .error (.notSupported "getDriveMode() is not supported on Ricoh GR II") ∧
    GR2.getSelfTimerOptionList =
      .error (.notSupported
        "getSelfTimerOptionList() is not supported on Ricoh GR II") ∧
    GR2.getSelfTimerOption =
      .error (.notSupported
        "getSelfTimerOption() is not supported on Ricoh GR II") ∧
    (∀ d t, GR2.setShootMode d t =
      .error (.notSupported "setShootMode() is not supported on Ricoh GR II")) :=
  ⟨rfl, rfl, rfl, fun _ _ => rfl⟩

/-- The outcome a poll tick's properties fetch can have: a parsed JSON
snapshot, or a transport failure (network error / non-success status /
timeout) rejecting the request promise. -/
inductive FetchResult where
  | ok (data : Snap)
  | fail

/-- A semantic camera event as emitted by an adapter, with its arguments. -/
inductive CameraEvent where
  | connected (snapshot : Snap)
  | disconnected
  | captureSettingsChanged (info : Option Snap)
      (differences : List (String × Option JVal × Option JVal))
  | focusChanged (info : Option Snap)
      (differences : List (String × Option JVal × Option JVal))
  | storageChanged (info : Option Snap)
      (differences : List (String × Option JVal × Option JVal))
  | orientationChanged (info : Option Snap)
      (differences : List (String × Option JVal × Option JVal))

/-- EVENT_KEY_MAP.FocusChanged from src/core/constants/EventMap.ts. -/
def EVENT_KEY_MAP_FocusChanged : List String :=
  ["focused", "focusLocked", "focusMode", "AFMode", "focusSetting"]

/-- EVENT_KEY_MAP.OrientationChanged. -/
def EVENT_KEY_MAP_OrientationChanged : List String := ["cameraOrientation"]

/-- EVENT_KEY_MAP.CaptureSettingsChanged. -/
def EVENT_KEY_MAP_CaptureSettingsChanged : List String :=
  ["av", "tv", "sv", "xv", "flashxv", "shootMode", "WBMode", "exposureMode",
   "meteringMode", "effect", "stillSize", "movieSize", "focusMode", "AFMode",
   "focusSetting"]

/-- EVENT_KEY_MAP.StorageChanged. -/
def EVENT_KEY_MAP_StorageChanged : List String := ["storages"]

/-- GR3Adapter.dispatchChangedEvents: one event per semantic category whose
trigger-key set intersects the changed keys, in source order (capture
settings, focus, storage, orientation), each carrying this.info and the
difference record. -/
def gr3DispatchChangedEvents (info : Option Snap)
    (differences : List (String × Option JVal × Option JVal)) :
    List CameraEvent :=
  (if hasAnyKey differences EVENT_KEY_MAP_CaptureSettingsChanged then
    [CameraEvent.captureSettingsChanged info differences] else []) ++
  (if hasAnyKey differences EVENT_KEY_MAP_FocusChanged then
    [CameraEvent.focusChanged info differences] else []) ++
  (if hasAnyKey differences EVENT_KEY_MAP_StorageChanged then
    [CameraEvent.storageChanged info differences] else []) ++
  (if hasAnyKey differences EVENT_KEY_MAP_OrientationChanged then
    [CameraEvent.orientationChanged info differences] else [])

/-- GR2Adapter.dispatchChangedEvents: capture settings and focus only
(orientation is not supported on the GR II, storage is excluded upstream). -/
def gr2DispatchChangedEvents (info : Option Snap)
    (differences : List (String × Option JVal × Option JVal)) :
    List CameraEvent :=
  (if hasAnyKey differences EVENT_KEY_MAP_CaptureSettingsChanged then
    [CameraEvent.captureSettingsChanged info differences] else []) ++
  (if hasAnyKey differences EVENT_KEY_MAP_FocusChanged then
    [CameraEvent.focusChanged info differences] else [])

/-- disconnect() of both adapters: reset the connected flag, clear the cached
snapshot, stop the poller, emit Disconnected. -/
def adapterDisconnect (_s : AdapterState) : AdapterState × List CameraEvent :=
  ({ isConnected := false, cachedDeviceInfo := none, pollerActive := false },
   [CameraEvent.disconnected])

/-- The shared shape of fetchData (the poll-tick handler) of both adapters,
parameterised by the generation's exclusion keys and event dispatcher, run
against one fetch outcome.  The handler is a total function into
(post-state, emitted events): in the Connected branch the promise rejection
is consumed by the catch handler (which runs disconnect()), so no exception
escapes the tick to external callers; in the Disconnected branch a failure
leaves the state untouched and emits nothing. -/
def fetchDataTick (excludedKeys : List String)
    (dispatch : Option Snap →
      List (String × Option JVal × Option JVal) → List CameraEvent)
    (s : AdapterState) (r : FetchResult) : AdapterState × List CameraEvent :=
  if s.isConnected then
    match r with
    | .ok data =>
      let result := findDifferences (s.cachedDeviceInfo.getD []) data
        excludedKeys
      if result.size > 0 then
        let s' := { s with cachedDeviceInfo := some data }
        (s', dispatch s'.cachedDeviceInfo result.differences)
      else
        (s, [])
    | .fail => adapterDisconnect s
  else
    match r with
    | .ok data =>
      let s' := { s with isConnected := true, cachedDeviceInfo := some data }
      (s', [CameraEvent.connected data])
    | .fail => (s, [])

/-- GR3Adapter.fetchData: excludes only the continuously-mutating datetime
field from the diff. -/
def GR3.fetchData (s : AdapterState) (r : FetchResult) :
    AdapterState × List CameraEvent :=
  fetchDataTick ["datetime"] gr3DispatchChangedEvents s r

/-- GR2Adapter.fetchData: excludes datetime and the storage-device list. -/
def GR2.fetchData (s : AdapterState) (r : FetchResult) :
    AdapterState × List CameraEvent :=
  fetchDataTick ["datetime", "storages"] gr2DispatchChangedEvents s r

/-- C1: on both adapter generations, a poll tick whose fetch fails with a
transport error while the adapter is Connected clears the cached snapshot,
transitions to Disconnected (stopping the poller on the way), and emits
exactly the Disconnected event.  The tick handler is a total function of
(state, fetch outcome) — the transport rejection is absorbed by its catch
handler, so no exception propagates out of the tick to external callers. -/
theorem tick_transport_failure_disconnects (s : AdapterState)
    (h : s.isConnected = true) :
    GR3.fetchData s .fail =
      (⟨false, none, false⟩, [CameraEvent.disconnected]) ∧
    GR2.fetchData s .fail =
      (⟨false, none, false⟩, [CameraEvent.disconnected]) := by
  constructor <;>
    simp [GR3.fetchData, GR2.fetchData, fetchDataTick, adapterDisconnect, h]

/-- C1 witness: a concrete Connected adapter state with a cached snapshot. -/
theorem tick_transport_failure_disconnects_witness :
    GR3.fetchData ⟨true, some [("model", JVal.str "GR III")], true⟩ .fail =
      (⟨false, none, false⟩, [CameraEvent.disconnected]) ∧
    GR2.fetchData ⟨true, some [("model", JVal.str "GR II")], true⟩ .fail =
      (⟨false, none, false⟩, [CameraEvent.disconnected]) :=
  ⟨(tick_transport_failure_disconnects
      ⟨true, some [("model", JVal.str "GR III")], true⟩ rfl).1,
   (tick_transport_failure_disconnects
      ⟨true, some [("model", JVal.str "GR II")], true⟩ rfl).2⟩

/-- Adapter states reachable through the operations that touch the connection
state: construction (connected flag down, no cache, poller started by the
constructor), any GR III or GR II poll tick with any fetch outcome, an
explicit disconnect() call, and starting / stopping event listening. -/
inductive Reachable : AdapterState → Prop where
  | init : Reachable ⟨false, none, true⟩
  | gr3Step {s r} : Reachable s → Reachable (GR3.fetchData s r).1
  | gr2Step {s r} : Reachable s → Reachable (GR2.fetchData s r).1
  | disc {s} : Reachable s → Reachable (adapterDisconnect s).1
  | startListening {s} : Reachable s → Reachable { s with pollerActive := true }
  | stopListening {s} : Reachable s → Reachable { s with pollerActive := false }

/-- The connected flag agrees with cache presence after one tick of either
generation, provided it did before. -/
theorem fetchDataTick_preserves_inv (excludedKeys : List String)
    (dispatch : Option Snap →
      List (String × Option JVal × Option JVal) → List CameraEvent)
    (s : AdapterState) (r : FetchResult)
    (ih : s.isConnected = true ↔ s.cachedDeviceInfo ≠ none) :
    (fetchDataTick excludedKeys dispatch s r).1.isConnected = true ↔
      (fetchDataTick excludedKeys dispatch s r).1.cachedDeviceInfo ≠ none := by
  by_cases hc : s.isConnected = true
  · cases r with
    | ok data =>
      simp only [fetchDataTick, hc, if_true]
      by_cases hs :
          (findDifferences (s.cachedDeviceInfo.getD []) data
            excludedKeys).size > 0
      · simp [hs, hc]
      · simp [hs, ih]
    | fail => simp [fetchDataTick, hc, adapterDisconnect]
  · have hb : s.isConnected = false := by
      cases hcc : s.isConnected
      · rfl
      · exact absurd hcc hc
    have hnone : s.cachedDeviceInfo = none := by
      by_contra hne
      exact hc (ih.mpr hne)
    cases r with
    | ok data => simp [fetchDataTick, hb]
    | fail => simp [fetchDataTick, hb, hnone]

/-- C10: in every reachable adapter state of either generation, the connected
flag is up exactly when a snapshot is cached, and the captureSettings
accessor returns the identical cached object the info accessor returns
(capture settings are an alias of the device-info cache, never a separate
copy).  Construction, poll ticks (successful or failed, connecting or
connected), disconnect, and poller start/stop all preserve this. -/
theorem adapter_connected_iff_cached (s : AdapterState) (h : Reachable s) :
    (s.isConnected = true ↔ s.cachedDeviceInfo ≠ none) ∧
    captureSettingsAcc s = infoAcc s := by
  refine ⟨?_, rfl⟩
  induction h with
  | init => simp
  | gr3Step hs ih => exact fetchDataTick_preserves_inv _ _ _ _ ih
  | gr2Step hs ih => exact fetchDataTick_preserves_inv _ _ _ _ ih
  | disc hs ih => simp [adapterDisconnect]
  | startListening hs ih => simpa using ih
  | stopListening hs ih => simpa using ih

/-- C10 witness: the invariant at the freshly constructed adapter state. -/
theorem adapter_connected_iff_cached_witness :
    ((⟨false, none, true⟩ : AdapterState).isConnected = true ↔
      (⟨false, none, true⟩ : AdapterState).cachedDeviceInfo ≠ none) ∧
    captureSettingsAcc ⟨false, none, true⟩ = infoAcc ⟨false, none, true⟩ :=
  adapter_connected_iff_cached ⟨false, none, true⟩ .init

/-- What an armed setInterval timer of the Poller runs on each firing: either
the plain polling callback (armed by start), or the temporary-interval
wrapper that counts invocations against the requested cycle budget (armed by
setIntervalTemporarily; count is the wrapper's closure counter, cycles the
number it was called with). -/
inductive TimerKind where
  | normal
  | temporary (count : Nat) (cycles : ℚ)

/-- An armed timer: its firing period in milliseconds and its callback. -/
structure Timer where
  period : Nat
  kind : TimerKind

/-- The mutable state of a Poller from
src/shared/infrastructure/Poller.ts: the armed timer (null when stopped),
the current interval, and the immutable default interval. -/
structure PollerState where
  intervalId : Option Timer
  currentInterval : Nat
  defaultInterval : Nat

namespace Poller

/-- clear(): drop the armed timer, if any. -/
def clear (s : PollerState) : PollerState := { s with intervalId := none }

/-- start(): clear, then arm a plain timer at the current interval. -/
def start (s : PollerState) : PollerState :=
  { clear s with intervalId := some ⟨s.currentInterval, .normal⟩ }

/-- stop(): clear the armed timer. -/
def stop (s : PollerState) : PollerState := clear s

/-- setIntervalMs(ms): permanently change the interval, restarting at the new
cadence when a timer is armed. -/
def setIntervalMs (s : PollerState) (ms : Nat) : PollerState :=
  let s' := { s with currentInterval := ms }
  if s'.intervalId.isSome then start s' else s'

/-- setIntervalTemporarily(ms, cycles): reject non-integer or below-1 cycle
counts before touching any timer (the source throws an Error whose message
starts with the text used here and ends with the interpolated received
value); otherwise clear and arm the counting wrapper at the temporary
cadence.  Returns the thrown-or-ok outcome together with the poller state
after the call. -/
def setIntervalTemporarily (s : PollerState) (ms : Nat) (cycles : ℚ) :
    Except CamErr Unit × PollerState :=
  if ¬cycles.isInt ∨ cycles < 1 then
    (.error (.invalidArgument
      "\"cycles\" must be an integer greater than or equal to 1."), s)
  else
    (.ok (), { s with intervalId := some ⟨ms, .temporary 0 cycles⟩ })

/-- One firing of the armed timer's callback, as it changes the poller state:
the plain callback leaves it alone; the temporary wrapper increments its
count and, once the count reaches the cycle budget, reverts by calling
setIntervalMs(defaultInterval), which restarts a plain timer at the default
cadence. -/
def handleTick (s : PollerState) : PollerState :=
  match s.intervalId with
  | some ⟨p, .temporary count cycles⟩ =>
    let s' : PollerState :=
      { s with intervalId := some ⟨p, .temporary (count + 1) cycles⟩ }
    if cycles ≤ ((count + 1 : Nat) : ℚ) then
      setIntervalMs s' s'.defaultInterval
    else
      s'
  | _ => s

end Poller

/-- The wall-clock time of the n-th callback invocation from a state whose
armed timer was (re)armed at time t: a timer armed at time t with period p
first fires at t + p, and each firing runs the callback (which may clear and
re-arm, resetting the phase to the firing instant) before the remaining
invocations.  none when no timer is armed (or n = 0). -/
def fireTime (s : PollerState) (t : Nat) : Nat → Option Nat
  | 0 => none
  | 1 => s.intervalId.map fun tm => t + tm.period
  | (k + 2) =>
    match s.intervalId with
    | none => none
    | some tm => fireTime (Poller.handleTick s) (t + tm.period) (k + 1)

/-- A plain timer with period p fires forever at multiples of p. -/
theorem fireTime_normal (p c d : Nat) : ∀ (k t : Nat),
    fireTime ⟨some ⟨p, .normal⟩, c, d⟩ t (k + 1) = some (t + (k + 1) * p) := by
  intro k
  induction k with
  | zero => intro t; simp [fireTime]
  | succ kk ih =>
    intro t
    have hstep : fireTime ⟨some ⟨p, .normal⟩, c, d⟩ t (kk + 1 + 1) =
        fireTime ⟨some ⟨p, .normal⟩, c, d⟩ (t + p) (kk + 1) := rfl
    rw [hstep, ih]
    exact congrArg some (by ring)

/-- A temporary timer with period m, count j of a budget of n (j < n) and
default interval d fires the remaining n - j budgeted invocations at cadence
m and all later ones at cadence d. -/
theorem fireTime_temp (c d m n : Nat) : ∀ (k j t : Nat), j < n →
    fireTime ⟨some ⟨m, .temporary j (n : ℚ)⟩, c, d⟩ t (k + 1) =
      some (if k + 1 ≤ n - j then t + (k + 1) * m
            else t + (n - j) * m + (k + 1 - (n - j)) * d) := by
  intro k
  induction k with
  | zero =>
    intro j t hj
    have h1 : 1 ≤ n - j := by omega
    simp [fireTime, h1]
  | succ kk ih =>
    intro j t hj
    have hstep : fireTime ⟨some ⟨m, .temporary j (n : ℚ)⟩, c, d⟩ t (kk + 1 + 1) =
        fireTime (Poller.handleTick ⟨some ⟨m, .temporary j (n : ℚ)⟩, c, d⟩)
          (t + m) (kk + 1) := rfl
    rw [hstep]
    by_cases hend : n ≤ j + 1
    · have hcast : (n : ℚ) ≤ ((j + 1 : Nat) : ℚ) := by exact_mod_cast hend
      have hh : Poller.handleTick ⟨some ⟨m, .temporary j (n : ℚ)⟩, c, d⟩
          = ⟨some ⟨d, .normal⟩, d, d⟩ := by
        simp only [Poller.handleTick]
        rw [if_pos hcast]
        rfl
      rw [hh, fireTime_normal]
      rw [if_neg (by omega : ¬(kk + 1 + 1 ≤ n - j))]
      refine congrArg some ?_
      have h2 : n - j = 1 := by omega
      have h3 : kk + 1 + 1 - (n - j) = kk + 1 := by omega
      rw [h3, h2]
      ring
    · have hcast : ¬((n : ℚ) ≤ ((j + 1 : Nat) : ℚ)) := by
        intro hcon
        exact hend (by exact_mod_cast hcon)
      have hh : Poller.handleTick ⟨some ⟨m, .temporary j (n : ℚ)⟩, c, d⟩
          = ⟨some ⟨m, .temporary (j + 1) (n : ℚ)⟩, c, d⟩ := by
        simp only [Poller.handleTick]
        rw [if_neg hcast]
      rw [hh, ih (j + 1) (t + m) (by omega)]
      by_cases hle : kk + 1 ≤ n - (j + 1)
      · rw [if_pos hle, if_pos (by omega : kk + 1 + 1 ≤ n - j)]
        exact congrArg some (by ring)
      · rw [if_neg hle, if_neg (by omega : ¬(kk + 1 + 1 ≤ n - j))]
        refine congrArg some ?_
        have hb : n - j = n - (j + 1) + 1 := by omega
        have he : kk + 1 + 1 - (n - (j + 1) + 1) = kk + 1 - (n - (j + 1)) := by
          omega
        rw [hb, he]
        ring

/-- C7: for every poller state and every integer cycles ≥ 1,
setIntervalTemporarily(ms, cycles) succeeds and, counting invocations from
the call at time 0, the callback runs at cadence ms for exactly the first
cycles invocations (invocation i fires at i * ms), after which the poller
reverts to the default interval and keeps polling indefinitely at that
cadence; in particular the (cycles+1)-th invocation fires exactly one
default interval after the cycles-th. -/
theorem setIntervalTemporarily_exact_cycles (s : PollerState) (ms : Nat)
    (cycles : Nat) (hc : 1 ≤ cycles) :
    (Poller.setIntervalTemporarily s ms (cycles : ℚ)).1 = .ok () ∧
    (∀ k : Nat,
      fireTime (Poller.setIntervalTemporarily s ms (cycles : ℚ)).2 0 (k + 1) =
        some (if k + 1 ≤ cycles then (k + 1) * ms
              else cycles * ms + (k + 1 - cycles) * s.defaultInterval)) ∧
    fireTime (Poller.setIntervalTemporarily s ms (cycles : ℚ)).2 0
        (cycles + 1) =
      some (cycles * ms + s.defaultInterval) := by
  have hint : (cycles : ℚ).isInt = true := by
    simp [Rat.isInt]
  have hge : ¬((cycles : ℚ) < 1) := by
    refine not_lt.mpr ?_
    exact_mod_cast hc
  have hcond : ¬(¬((cycles : ℚ).isInt = true) ∨ (cycles : ℚ) < 1) := by
    rintro (h | h)
    · exact h hint
    · exact hge h
  have hres : Poller.setIntervalTemporarily s ms (cycles : ℚ) =
      (.ok (),
       { s with
         intervalId := some (Timer.mk ms (.temporary 0 (cycles : ℚ))) }) := by
    unfold Poller.setIntervalTemporarily
    rw [if_neg hcond]
  have hmain : ∀ k : Nat,
      fireTime (Poller.setIntervalTemporarily s ms (cycles : ℚ)).2 0 (k + 1) =
        some (if k + 1 ≤ cycles then (k + 1) * ms
              else cycles * ms + (k + 1 - cycles) * s.defaultInterval) := by
    intro k
    rw [hres]
    have h := fireTime_temp s.currentInterval s.defaultInterval ms cycles k 0 0
      (by omega)
    simpa using h
  refine ⟨by rw [hres], hmain, ?_⟩
  have h2 := hmain cycles
  rw [if_neg (by omega)] at h2
  have h3 : cycles + 1 - cycles = 1 := by omega
  rw [h3, one_mul] at h2
  exact h2

/-- C7 witness: a stopped poller with default interval 5; temporary cadence 3
for 2 cycles; the third invocation fires at 2*3 + 5 = 11. -/
theorem setIntervalTemporarily_exact_cycles_witness :
    (Poller.setIntervalTemporarily ⟨none, 7, 5⟩ 3 (2 : ℚ)).1 = .ok () ∧
    fireTime (Poller.setIntervalTemporarily ⟨none, 7, 5⟩ 3 (2 : ℚ)).2 0 2 =
      some 6 ∧
    fireTime (Poller.setIntervalTemporarily ⟨none, 7, 5⟩ 3 (2 : ℚ)).2 0 3 =
      some 11 := by
  have h := setIntervalTemporarily_exact_cycles ⟨none, 7, 5⟩ 3 2 (by decide)
  refine ⟨h.1, ?_, ?_⟩
  · have h2 := h.2.1 1
    simpa using h2
  · have h3 := h.2.2
    simpa using h3

/-- C8: for every poller state, setIntervalTemporarily with a cycles argument
that is not an integer ≥ 1 fails with the InvalidArgument condition, and —
the validation running before any timer is torn down or armed — returns the
poller state completely unchanged (running/stopped status, armed timer and
intervals all as before the call). -/
theorem setIntervalTemporarily_invalid_rejected (s : PollerState) (ms : Nat)
    (cycles : ℚ) (h : ¬(cycles.isInt = true) ∨ cycles < 1) :
    Poller.setIntervalTemporarily s ms cycles =
      (.error (.invalidArgument
        "\"cycles\" must be an integer greater than or equal to 1."), s) := by
  unfold Poller.setIntervalTemporarily
  rw [if_pos h]

/-- C8 witness: a running poller (armed 2000 ms timer) rejects both cycles=0
and cycles=1.5 and is left untouched. -/
theorem setIntervalTemporarily_invalid_rejected_witness :
    Poller.setIntervalTemporarily ⟨some ⟨2000, .normal⟩, 2000, 2000⟩ 100
        (0 : ℚ) =
      (.error (.invalidArgument
        "\"cycles\" must be an integer greater than or equal to 1."),
       ⟨some ⟨2000, .normal⟩, 2000, 2000⟩) ∧
    Poller.setIntervalTemporarily ⟨some ⟨2000, .normal⟩, 2000, 2000⟩ 100
        (3 / 2 : ℚ) =
      (.error (.invalidArgument
        "\"cycles\" must be an integer greater than or equal to 1."),
       ⟨some ⟨2000, .normal⟩, 2000, 2000⟩) :=
  ⟨setIntervalTemporarily_invalid_rejected _ 100 (0 : ℚ)
      (Or.inr (by decide)),
   setIntervalTemporarily_invalid_rejected _ 100 (3 / 2 : ℚ)
      (Or.inl (by
        rw [show (3 / 2 : ℚ) = (⟨3, 2, by decide, by decide⟩ : ℚ) by
          rw [Rat.mk'_eq_divInt, Rat.divInt_eq_div]; norm_num]
        decide))⟩

/-- The event names the facade subscribes to on a freshly selected adapter
and forwards: detectAndInitialize in src/index.tsx calls
forwardAdapterEvents with exactly CameraEvents.Connected,
CameraEvents.Disconnected and CameraEvents.CaptureSettingsChanged, whose
string values are listed here.  The adapter-side enum also carries
focusChanged, orientationChanged and storageChanged, which are not in this
list. -/
def forwardedEvents : List String :=
  ["connected", "disconnected", "captureSettingsChanged"]

/-- Event forwarding through the facade: forwardAdapterEvents registers, for
each event name in the list, a handler that re-emits that event name with
the received argument list; when the adapter emits event e with arguments
args, the facade emissions are one (name, args) pair per registered handler
whose name equals e. -/
def facadeReEmissions {α : Type} (e : String) (args : α) : List (String × α) :=
  (forwardedEvents.filter (fun ev => ev == e)).map fun ev => (ev, args)

/-- The wire name (enum value) under which an adapter emits each semantic
event. -/
def cameraEventName : CameraEvent → String
  | .connected _ => "connected"
  | .disconnected => "disconnected"
  | .captureSettingsChanged _ _ => "captureSettingsChanged"
  | .focusChanged _ _ => "focusChanged"
  | .storageChanged _ _ => "storageChanged"
  | .orientationChanged _ _ => "orientationChanged"

/-- C2 counterexample: a Connected GR III adapter whose tick sees a focus
change emits the focusChanged event, but the facade's forwarding listeners
produce no re-emission for it — focusChanged (like orientationChanged and
storageChanged) is not among the three events the facade subscribes to, so
not every adapter event is re-emitted by the facade. -/
theorem facade_focusChanged_not_forwarded :
    (GR3.fetchData ⟨true, some [("focused", JVal.bool false)], true⟩
        (.ok [("focused", JVal.bool true)])).2 =
      [CameraEvent.focusChanged (some [("focused", JVal.bool true)])
        [("focused", some (JVal.bool false), some (JVal.bool true))]] ∧
    facadeReEmissions "focusChanged"
        (some [("focused", JVal.bool true)],
         [("focused", some (JVal.bool false), some (JVal.bool true))]) =
      [] :=
  ⟨rfl, rfl⟩

/-- C2 as amended: the facade re-emits verbatim — same event name, same
arguments, exactly once — each event it subscribes to: Connected,
Disconnected and CaptureSettingsChanged.  The remaining adapter events
(FocusChanged, OrientationChanged, StorageChanged) are not forwarded. -/
theorem facade_forwards_subscribed_events {α : Type} (e : String) (args : α)
    (h : e ∈ forwardedEvents) :
    facadeReEmissions e args = [(e, args)] := by
  simp only [forwardedEvents, List.mem_cons, List.not_mem_nil, or_false] at h
  rcases h with h | h | h <;> subst h <;> rfl

/-- C2 witness: a CaptureSettingsChanged emission is forwarded verbatim. -/
theorem facade_forwards_subscribed_events_witness :
    facadeReEmissions "captureSettingsChanged" (42 : Nat) =
      [("captureSettingsChanged", 42)] :=
  facade_forwards_subscribed_events "captureSettingsChanged" 42 (by decide)
